import Mathlib

/-!
Verification development for the Qlik ODAG link creator
(src/odag-link-creator.js).  The JavaScript source is shallowly embedded:
each remote exchange is represented by an explicit oracle (`Env`) that
supplies the responses the remote system would have produced, every
outbound call the code would issue is recorded in a trace of
`RemoteCall` values, and the mutable `ODAGLinkCreator` instance fields
are threaded as an explicit `CreatorState`.  Thrown JavaScript `Error`
values are modelled as `Except` errors carrying the thrown message (or a
structured error type together with a message-rendering function where
the messages are built by a `switch`).
-/

namespace ODAG

/-- The 62-character alphabet used by `generateXrfKey`
(`abcdefghijklmnopqrstuvwxyzABCDEFGHIJKLMNOPQRSTUVWXYZ0123456789`). -/
def xrfChars : List Char :=
  "abcdefghijklmnopqrstuvwxyzABCDEFGHIJKLMNOPQRSTUVWXYZ0123456789".toList

/-- `generateXrfKey` (source lines 50-57): builds a 16-character string,
each character picked from `xrfChars` at index
`Math.floor(Math.random() * chars.length)`.  The random source is
modelled as a function `rand : Nat → Nat`; `Math.floor(Math.random()*62)`
always lies in `[0, 61]`, which callers supply as the hypothesis
`∀ i, rand i < 62`. -/
def generateXrfKey (rand : Nat → Nat) : String :=
  String.mk ((List.range 16).map (fun i => xrfChars.getD (rand i) ' '))

/-- JavaScript truthiness of an optional string field: `undefined`/`null`
(here `none`) and the empty string are falsy, everything else truthy. -/
def truthyOpt : Option String → Bool
  | none => false
  | some s => s ≠ ""

/-- JavaScript `a || b` for an optional string `a` against a string
default `b` (an absent or empty string falls back to the default). -/
def orElseStr (a : Option String) (b : String) : String :=
  match a with
  | none => b
  | some s => if s = "" then b else s

/-- Result of one HTTPS exchange as seen by the axios caller:
`ok status body` is a resolved 2xx response; `httpError` is a rejected
promise whose error carries `error.response.status`, the optional
`error.response.data.message`, and the axios `error.message` text;
`transportError` is a rejection with no `error.response` (socket error,
timeout, or an error thrown inside the try block). -/
inductive HttpResult (α : Type) where
  | ok (status : Nat) (body : α)
  | httpError (status : Nat) (dataMessage : Option String) (errMessage : String)
  | transportError (errMessage : String)
deriving DecidableEq

/-- Body of the QRS `GET /qrs/app/{id}` metadata lookup
(`response.data` in `validateAppId`): the fields the code reads. -/
structure AppInfo where
  id : Option String
  name : String
  published : Bool
deriving DecidableEq

/-- The created link resource as the client sees it: the server-issued
`id` plus the remaining body fields, abstracted as one opaque string. -/
structure LinkResource where
  id : Option String
  rest : String
deriving DecidableEq

/-- Body of the ODAG `POST /v1/links` response (`response.data` in
`createODAGLink`): either a nested object-definition wrapper
(`objectDef`), a flat resource body (top-level `id`), or neither. -/
structure CreateRespBody where
  objectDef : Option LinkResource
  id : Option String
  rest : String
deriving DecidableEq

/-- One policy block of `rowEstRange`:
`{ context, lowBound, highBound }`. -/
structure RangeBlock where
  context : String
  lowBound : Int
  highBound : Int
deriving DecidableEq

/-- One policy block of `appRetentionTime`: `{ context, minutes }`. -/
structure RetentionBlock where
  context : String
  minutes : Int
deriving DecidableEq

/-- One policy block of `genAppName`: `{ context, formatString }`. -/
structure NameBlock where
  context : String
  formatString : String
deriving DecidableEq

/-- The `linkConfig` record assembled by `createCompleteODAGLink` and
consumed by `createODAGLink`; the three policy fields are `none` when
the caller omitted them. -/
structure LinkConfig where
  name : String
  selectionAppId : String
  templateAppId : String
  rowEstExpr : String
  rowEstRange : Option (List RangeBlock)
  appRetentionTime : Option (List RetentionBlock)
  genAppName : Option (List NameBlock)
deriving DecidableEq

/-- The `odagPayload` object posted to the link-creation endpoint
(source lines 140-160). -/
structure OdagPayload where
  name : String
  selectionApp : String
  templateApp : String
  rowEstExpr : String
  rowEstRange : List RangeBlock
  appRetentionTime : List RetentionBlock
  genAppName : List NameBlock
deriving DecidableEq

/-- Payload construction of `createODAGLink` (source lines 140-160):
each omitted policy block (JavaScript `||`) is replaced by its default;
a caller-supplied block is passed through unchanged. -/
def buildOdagPayload (lc : LinkConfig) : OdagPayload :=
  { name := lc.name
    selectionApp := lc.selectionAppId
    templateApp := lc.templateAppId
    rowEstExpr := lc.rowEstExpr
    rowEstRange := lc.rowEstRange.getD [⟨"User_*", 1, 500000⟩]
    appRetentionTime := lc.appRetentionTime.getD [⟨"User_*", 10080⟩]
    genAppName := lc.genAppName.getD
      [⟨"User_*", lc.name ++ " - $(user.name) - $(=Now())"⟩] }

/-- One outbound remote call, each recorded with the anti-forgery token
it carries (as `xrfkey` URL parameter and `X-Qlik-Xrfkey` header for the
REST calls, and as the WebSocket handshake header for the engine
connection). -/
inductive RemoteCall where
  | qrsAbout (xrf : String)
  | qrsApp (appId : String) (xrf : String)
  | odagCreate (payload : OdagPayload) (xrf : String)
  | odagProbe (xrf : String)
  | navRegister (appId : String) (linkId : Option String) (xrf : String)
deriving DecidableEq

/-- The anti-forgery token a recorded outbound call carries. -/
def callXrf : RemoteCall → String
  | .qrsAbout x => x
  | .qrsApp _ x => x
  | .odagCreate _ x => x
  | .odagProbe x => x
  | .navRegister _ _ x => x

/-- Is the recorded call the link-creation POST? -/
def isCreateCall : RemoteCall → Bool
  | .odagCreate _ _ => true
  | _ => false

/-- Is the recorded call the authentication probe (`GET /qrs/about`)? -/
def isAuthCall : RemoteCall → Bool
  | .qrsAbout _ => true
  | _ => false

/-- The mutable fields of an `ODAGLinkCreator` instance that the
embedded operations read or write: the anti-forgery token (`this.xrfKey`)
and the authentication flag (`this.authenticated`). -/
structure CreatorState where
  xrfKey : String
  authenticated : Bool
deriving DecidableEq

/-- Instance construction (source lines 13-48): the token is generated
exactly once here, `authenticated` starts false. -/
def mkCreator (rand : Nat → Nat) : CreatorState :=
  { xrfKey := generateXrfKey rand, authenticated := false }

/-- Engine navigation-leg outcome as the orchestrator sees the
`addNavigationLinkToApp` promise: resolution message or rejection
message.  (The driver itself is modelled separately below.) -/
abbrev NavOutcome := Except String String

/-- The remote world's scripted responses for one orchestrated request:
the `GET /qrs/about` outcome, the per-app-id metadata lookup outcome,
the link-creation POST outcome, and the navigation-leg outcome. -/
structure Env where
  authResult : HttpResult Unit
  appResp : String → HttpResult AppInfo
  createResp : HttpResult CreateRespBody
  navResult : NavOutcome

/-- `authenticate` (source lines 59-83): issues `GET /qrs/about`; on
HTTP 200 sets `this.authenticated = true`; on any other 2xx returns
without setting the flag; a rejected request throws
`Authentication failed: <message>`. -/
def authenticate (env : Env) (st : CreatorState) :
    List RemoteCall × CreatorState × Except String Unit :=
  match env.authResult with
  | .ok status _ =>
      if status = 200 then
        ([.qrsAbout st.xrfKey], { st with authenticated := true }, .ok ())
      else
        ([.qrsAbout st.xrfKey], st, .ok ())
  | .httpError _ _ em =>
      ([.qrsAbout st.xrfKey], st, .error ("Authentication failed: " ++ em))
  | .transportError em =>
      ([.qrsAbout st.xrfKey], st, .error ("Authentication failed: " ++ em))

/-- `ensureAuthenticated` (source lines 85-89): authenticate only when
the flag is not yet set. -/
def ensureAuthenticated (env : Env) (st : CreatorState) :
    List RemoteCall × CreatorState × Except String Unit :=
  if st.authenticated then ([], st, .ok ()) else authenticate env st

/-- `validateAppId`'s successful return value: `{valid:true, name, id,
published}` or `{valid:false, error}`. -/
inductive AppValidationResult where
  | found (name : String) (id : String) (published : Bool)
  | notFound (error : String)
deriving DecidableEq

/-- The `valid` flag of an `AppValidationResult`. -/
def AppValidationResult.valid : AppValidationResult → Bool
  | .found _ _ _ => true
  | .notFound _ => false

/-- The resolved name (only meaningful on the `found` branch). -/
def AppValidationResult.name : AppValidationResult → String
  | .found n _ _ => n
  | .notFound _ => ""

/-- The `error` text (only meaningful on the `notFound` branch). -/
def AppValidationResult.error : AppValidationResult → String
  | .found _ _ _ => ""
  | .notFound e => e

/-- `validateAppId` (source lines 91-126): ensure authentication, then
`GET /qrs/app/{appId}`.  A 2xx body with a truthy `id` yields
`{valid:true, ...}`; a 2xx body without one throws `App not found:`
inside the try, which the catch rethrows as a validation failure
(no `error.response` on a locally thrown error); a 404 yields
`{valid:false, error: App ID not found: <id>}`; any other failure is
rethrown as `Failed to validate app ID <id>: <message>`. -/
def validateAppId (env : Env) (st : CreatorState) (appId : String) :
    List RemoteCall × CreatorState × Except String AppValidationResult :=
  let (c1, st1, r1) := ensureAuthenticated env st
  match r1 with
  | .error m =>
      (c1, st1, .error ("Failed to validate app ID " ++ appId ++ ": " ++ m))
  | .ok _ =>
      let calls := c1 ++ [.qrsApp appId st1.xrfKey]
      match env.appResp appId with
      | .ok _ body =>
          if truthyOpt body.id then
            (calls, st1, .ok (.found body.name (body.id.getD "") body.published))
          else
            (calls, st1, .error
              ("Failed to validate app ID " ++ appId ++ ": App not found: " ++ appId))
      | .httpError status _ em =>
          if status = 404 then
            (calls, st1, .ok (.notFound ("App ID not found: " ++ appId)))
          else
            (calls, st1, .error
              ("Failed to validate app ID " ++ appId ++ ": " ++ em))
      | .transportError em =>
          (calls, st1, .error
            ("Failed to validate app ID " ++ appId ++ ": " ++ em))

/-- The typed link-creation error thrown by `createODAGLink`'s catch
block (source lines 175-201).  JavaScript distinguishes these errors
only by message text; the constructor records which `switch` arm fired
(and the data it interpolates), and `odagErrorMessage` renders the
exact thrown message. -/
inductive ODAGError where
  | badRequest (dataMessage : Option String)
  | unauthorized
  | forbidden
  | serviceNotFound
  | methodNotAllowed
  | serverError (dataMessage : Option String)
  | unexpectedStatus (status : Nat) (message : String)
  | generic (message : String)
deriving DecidableEq

/-- The message text carried by each thrown link-creation error. -/
def odagErrorMessage : ODAGError → String
  | .badRequest dm => "Bad Request: " ++ orElseStr dm "Invalid ODAG configuration"
  | .unauthorized => "Unauthorized: Please check your authentication credentials"
  | .forbidden => "Forbidden: User may not have ODAG permissions"
  | .serviceNotFound => "Not Found: ODAG service may not be running on port 9098"
  | .methodNotAllowed => "Method Not Allowed: Check ODAG service configuration and URL path"
  | .serverError dm => "Server Error: " ++ orElseStr dm "Internal server error"
  | .unexpectedStatus status m =>
      "HTTP " ++ toString status ++ ": " ++ m
  | .generic m => "Failed to create ODAG link: " ++ m

/-- The `switch (status)` of `createODAGLink`'s catch block: the typed
error raised for a non-2xx response, chosen solely by the status code
(`dataMessage` and `errMessage` only feed the message text). -/
def statusError (status : Nat) (dataMessage : Option String)
    (errMessage : String) : ODAGError :=
  if status = 400 then .badRequest dataMessage
  else if status = 401 then .unauthorized
  else if status = 403 then .forbidden
  else if status = 404 then .serviceNotFound
  else if status = 405 then .methodNotAllowed
  else if status = 500 then .serverError dataMessage
  else .unexpectedStatus status (orElseStr dataMessage errMessage)

/-- Success recognition of `createODAGLink` (source lines 166-174):
accept a nested object-definition wrapper (`response.data.objectDef`
with a truthy `id`, returned unchanged) or a flat resource body
(`response.data` with a truthy top-level `id`); otherwise no link
resource is recognised. -/
def extractLink (body : CreateRespBody) : Option LinkResource :=
  match body.objectDef with
  | some od =>
      if truthyOpt od.id then some od
      else if truthyOpt body.id then some ⟨body.id, body.rest⟩
      else none
  | none =>
      if truthyOpt body.id then some ⟨body.id, body.rest⟩
      else none

/-- `createODAGLink` (source lines 128-202): ensure authentication
(a failure there is caught by this function's own catch block, which
rethrows it as a generic creation failure because the thrown error has
no `error.response`), build the payload with defaults, POST it, then
recognise the response: a 2xx body in one of the two accepted shapes
yields the normalised link resource; a 2xx body with no id throws
`Failed to create ODAG link - no ID returned`, rethrown by the catch as
a generic creation failure; a non-2xx response throws the typed error
of `statusError`; a transport failure is rethrown generically. -/
def createODAGLink (env : Env) (st : CreatorState) (lc : LinkConfig) :
    List RemoteCall × CreatorState × Except ODAGError LinkResource :=
  let (c1, st1, r1) := ensureAuthenticated env st
  match r1 with
  | .error m => (c1, st1, .error (.generic m))
  | .ok _ =>
      let calls := c1 ++ [.odagCreate (buildOdagPayload lc) st1.xrfKey]
      match env.createResp with
      | .ok _ body =>
          match extractLink body with
          | some link => (calls, st1, .ok link)
          | none =>
              (calls, st1, .error
                (.generic "Failed to create ODAG link - no ID returned"))
      | .httpError status dm em =>
          (calls, st1, .error (statusError status dm em))
      | .transportError em => (calls, st1, .error (.generic em))

/-- The `options` record accepted by `createCompleteODAGLink` (the
`LinkRequest` of the specification); string fields are `none` when the
caller omitted them. -/
structure Options where
  linkName : Option String
  selectionAppId : Option String
  templateAppId : Option String
  rowEstExpr : Option String
  rowEstRange : Option (List RangeBlock)
  appRetentionTime : Option (List RetentionBlock)
  genAppName : Option (List NameBlock)
  description : Option String
deriving DecidableEq

/-- The result record returned by `createCompleteODAGLink` (the
`ProvisioningOutcome`): JavaScript object fields that a given return
path leaves absent are `none` (`isPartial` models the `partial` flag,
absent = falsy).  The `manualSteps` field exists only so the record
type can express the legacy variant's remediation list; the current
source never sets it. -/
structure CompleteResult where
  success : Bool
  isPartial : Bool
  odagLinkId : Option String
  selectionAppId : Option String
  templateAppId : Option String
  selectionAppName : Option String
  templateAppName : Option String
  message : Option String
  navigationLinkError : Option String
  manualSteps : Option (List String)
  error : Option String
deriving DecidableEq

/-- The total-failure result of `createCompleteODAGLink`'s outer catch:
`{ success: false, error: message }`. -/
def failResult (m : String) : CompleteResult :=
  { success := false, isPartial := false, odagLinkId := none
    selectionAppId := none, templateAppId := none
    selectionAppName := none, templateAppName := none
    message := none, navigationLinkError := none
    manualSteps := none, error := some m }

/-- `createCompleteODAGLink` (source lines 334-426), the provisioning
orchestrator: ensure authentication first; require both application ids
truthy, then `linkName`, then `rowEstExpr`; validate both application
ids (both lookups are issued before either `valid` flag is checked);
create the link; then drive the navigation leg, downgrading its failure
to a partial-success result that keeps `success: true`.  Any error
thrown before the navigation leg is caught by the outer catch as
`{ success: false, error }`. -/
def createCompleteODAGLink (env : Env) (st : CreatorState) (opts : Options) :
    List RemoteCall × CreatorState × CompleteResult :=
  let (c1, st1, r1) := ensureAuthenticated env st
  match r1 with
  | .error m => (c1, st1, failResult m)
  | .ok _ =>
      if ¬(truthyOpt opts.selectionAppId ∧ truthyOpt opts.templateAppId) then
        (c1, st1, failResult
          "Missing required fields: selectionAppId and templateAppId are required")
      else if ¬truthyOpt opts.linkName then
        (c1, st1, failResult "Missing required field: linkName")
      else if ¬truthyOpt opts.rowEstExpr then
        (c1, st1, failResult "Missing required field: rowEstExpr")
      else
        let sel := opts.selectionAppId.getD ""
        let tmpl := opts.templateAppId.getD ""
        let (c2, st2, rv1) := validateAppId env st1 sel
        match rv1 with
        | .error m => (c1 ++ c2, st2, failResult m)
        | .ok sv =>
            let (c3, st3, rv2) := validateAppId env st2 tmpl
            match rv2 with
            | .error m => (c1 ++ c2 ++ c3, st3, failResult m)
            | .ok tv =>
                match sv with
                | .notFound e =>
                    (c1 ++ c2 ++ c3, st3, failResult
                      ("Selection app validation failed: " ++ e))
                | .found sname _ _ =>
                    match tv with
                    | .notFound e =>
                        (c1 ++ c2 ++ c3, st3, failResult
                          ("Template app validation failed: " ++ e))
                    | .found tname _ _ =>
                        let lc : LinkConfig :=
                          { name := opts.linkName.getD ""
                            selectionAppId := sel
                            templateAppId := tmpl
                            rowEstExpr := opts.rowEstExpr.getD ""
                            rowEstRange := opts.rowEstRange
                            appRetentionTime := opts.appRetentionTime
                            genAppName := opts.genAppName }
                        let (c4, st4, rc) := createODAGLink env st3 lc
                        match rc with
                        | .error e =>
                            (c1 ++ c2 ++ c3 ++ c4, st4,
                              failResult (odagErrorMessage e))
                        | .ok link =>
                            let calls :=
                              c1 ++ c2 ++ c3 ++ c4 ++
                                [.navRegister sel link.id st4.xrfKey]
                            match env.navResult with
                            | .ok _ =>
                                (calls, st4,
                                  { success := true, isPartial := false
                                    odagLinkId := link.id
                                    selectionAppId := some sel
                                    templateAppId := some tmpl
                                    selectionAppName := some sname
                                    templateAppName := some tname
                                    message := some
                                      "ODAG link created and registered in Hub successfully"
                                    navigationLinkError := none
                                    manualSteps := none, error := none })
                            | .error nm =>
                                (calls, st4,
                                  { success := true, isPartial := true
                                    odagLinkId := link.id
                                    selectionAppId := some sel
                                    templateAppId := some tmpl
                                    selectionAppName := some sname
                                    templateAppName := some tname
                                    message := some
                                      "ODAG link created successfully. Navigation link must be added manually."
                                    navigationLinkError := some nm
                                    manualSteps := none, error := none })

/-- The result record of `testConnection`. -/
structure TestResult where
  success : Bool
  message : Option String
  error : Option String
deriving DecidableEq

/-- `testConnection` (source lines 428-457): always calls `authenticate`
(not the idempotent wrapper); on success issues a read-only probe of the
ODAG endpoint whose own failure is swallowed, then reports success; an
authentication failure is converted into `{ success: false, error }` —
the operation never throws. -/
def testConnection (env : Env) (st : CreatorState) :
    List RemoteCall × CreatorState × TestResult :=
  let (c1, st1, r1) := authenticate env st
  match r1 with
  | .error m =>
      (c1, st1, { success := false, message := none, error := some m })
  | .ok _ =>
      (c1 ++ [.odagProbe st1.xrfKey], st1,
        { success := true, message := some "Connection test completed"
          error := none })

/-- The expected-response kind stored in the pending-request table of
`addNavigationLinkToApp` (the string tags `openApp` / `createObject` /
`save`). -/
inductive ReqKind where
  | openApp
  | createObject
  | save
deriving DecidableEq

/-- JavaScript `Map.get` over the pending-request table. -/
def mapGet (m : List (Nat × ReqKind)) (k : Nat) : Option ReqKind :=
  match m with
  | [] => none
  | (k1, v) :: rest => if k1 = k then some v else mapGet rest k

/-- JavaScript `Map.set` over the pending-request table (replace the
entry with the same key, else append). -/
def mapSet (m : List (Nat × ReqKind)) (k : Nat) (v : ReqKind) :
    List (Nat × ReqKind) :=
  match m with
  | [] => [(k, v)]
  | (k1, v1) :: rest =>
      if k1 = k then (k, v) :: rest else (k1, v1) :: mapSet rest k v

/-- Parameters of an outbound engine message: `OpenDoc` sends the
positional list `[selectionAppId]`; `CreateObject` sends the `qProp`
object (its `qInfo.qType` tag and `qMetaDef.odagLinkRef` back-reference);
`DoSave` sends the empty list. -/
inductive EngineParams where
  | docList (appIds : List String)
  | createObj (qType : String) (odagLinkRef : String)
  | empty
deriving DecidableEq

/-- One outbound JSON-RPC message of the engine session:
`{ handle, method, params, jsonrpc: "2.0", id }` (the constant
protocol-version tag is omitted; `handle` is `none` for a JavaScript
`null` handle). -/
structure EngineMsg where
  handle : Option Int
  method : String
  params : EngineParams
  id : Nat
deriving DecidableEq

/-- One inbound engine message, reduced to the fields the handler
reads: the correlation `id`, the optional `error` field's message text,
and the optional `result.qReturn.qHandle` (read only for an `OpenDoc`
response; `none` there models a payload from which the handle cannot be
read, which makes the handler's try block throw). -/
structure InboundMsg where
  id : Nat
  error : Option String
  qHandle : Option Int
deriving DecidableEq

/-- One observable action of the driver: send an outbound message,
initiate a close (with the explicit status code passed to `close`, or
`none` when called with no argument, as every `ws.close()` in this
source is), resolve the promise, or reject it. -/
inductive WsAction where
  | send (m : EngineMsg)
  | close (code : Option Nat)
  | resolve (message : String)
  | reject (message : String)
deriving DecidableEq

/-- Is the action an outbound send? -/
def isSend : WsAction → Bool
  | .send _ => true
  | _ => false

/-- Is the action an outbound `DoSave` send? -/
def isSaveSend : WsAction → Bool
  | .send m => m.method = "DoSave"
  | _ => false

/-- Modelled from the spec (RFC 6455 WebSocket close semantics, which
live in the external `ws` library, not in this repository): a close
initiated without an explicit status code is observed by the peers with
close code 1005 (no status received); the normal-closure code is 1000
and is only observed when passed explicitly. -/
def observedCloseCode : Option Nat → Nat
  | some c => c
  | none => 1005

/-- Per-session driver state of `addNavigationLinkToApp` (source lines
221-223): the `requestId` counter, the pending-request `Map`, the
captured `appHandle`, and whether the socket has been closed. -/
structure SessionState where
  requestId : Nat
  requests : List (Nat × ReqKind)
  appHandle : Option Int
  closed : Bool
deriving DecidableEq

/-- The `open` handler (source lines 230-246): from the fresh session
state, send `OpenDoc` for the selection application at the root handle
`-1` with correlation id 1, record the pending request, and advance the
counter. -/
def sessionStart (selectionAppId : String) : SessionState × List WsAction :=
  ({ requestId := 2, requests := [(1, .openApp)], appHandle := none, closed := false },
    [.send { handle := some (-1), method := "OpenDoc"
             params := .docList [selectionAppId], id := 1 }])

/-- The `message` handler (source lines 248-316): look the correlation
id up in the pending table; an `error` field closes the socket and
rejects with `WebSocket error: ` plus the remote message (this check
runs before the step dispatch, so it fires even for an unknown id); an
`openApp` response captures the application handle and sends
`CreateObject` (`qType: odagapplink`, `odagLinkRef` back-reference) at
that handle under a fresh id — a payload without a readable handle
throws inside the try block, closing and rejecting with a parse
failure; a `createObject` response sends `DoSave` at the captured
handle under a fresh id; a `save` response closes and resolves; an
unknown id falls through the `switch` and is ignored. -/
def onMessage (odagLinkId : String) (st : SessionState) (msg : InboundMsg) :
    SessionState × List WsAction :=
  let requestType := mapGet st.requests msg.id
  match msg.error with
  | some em =>
      ({ st with closed := true },
        [.close none, .reject ("WebSocket error: " ++ em)])
  | none =>
      match requestType with
      | some .openApp =>
          match msg.qHandle with
          | some h =>
              ({ st with
                  appHandle := some h
                  requests := mapSet st.requests st.requestId .createObject
                  requestId := st.requestId + 1 },
                [.send { handle := some h, method := "CreateObject"
                         params := .createObj "odagapplink" odagLinkId
                         id := st.requestId }])
          | none =>
              ({ st with closed := true },
                [.close none,
                  .reject "Failed to parse WebSocket response: cannot read qHandle"])
      | some .createObject =>
          ({ st with
              requests := mapSet st.requests st.requestId .save
              requestId := st.requestId + 1 },
            [.send { handle := st.appHandle, method := "DoSave"
                     params := .empty, id := st.requestId }])
      | some .save =>
          ({ st with closed := true },
            [.close none, .resolve "ODAG app link created and app saved"])
      | none => (st, [])

/-- Deliver a scripted list of inbound messages to the session, in
order, accumulating the driver's actions; once the driver has initiated
a close, the socket delivers nothing further. -/
def processMessages (odagLinkId : String) :
    SessionState → List InboundMsg → SessionState × List WsAction
  | st, [] => (st, [])
  | st, m :: rest =>
      if st.closed then (st, [])
      else
        let (st1, acts) := onMessage odagLinkId st m
        let (st2, acts2) := processMessages odagLinkId st1 rest
        (st2, acts ++ acts2)

/-- A whole scripted engine session: the connect handler's actions
followed by the actions produced while delivering the inbound script. -/
def runSession (selectionAppId odagLinkId : String)
    (script : List InboundMsg) : SessionState × List WsAction :=
  let (st0, a0) := sessionStart selectionAppId
  let (st1, a1) := processMessages odagLinkId st0 script
  (st1, a0 ++ a1)

theorem mapGet_mapSet_isSome (m : List (Nat × ReqKind)) (k k2 : Nat)
    (v : ReqKind) (h : (mapGet m k).isSome = true) :
    (mapGet (mapSet m k2 v) k).isSome = true := by
  induction m with
  | nil => simp [mapGet] at h
  | cons p rest ih =>
      obtain ⟨k1, v1⟩ := p
      by_cases h12 : k1 = k2
      · subst h12
        by_cases h1k : k1 = k
        · subst h1k
          simp [mapGet, mapSet]
        · simp [mapGet, mapSet, h1k] at h ⊢
          exact h
      · by_cases h1k : k1 = k
        · subst h1k
          simp [mapGet, mapSet, h12]
        · simp [mapGet, mapSet, h12, h1k] at h ⊢
          exact ih h

/-- C6: in the scripted engine exchange (an `OpenDoc` success returning
handle `h`, a create-object success, a save success), the initial
`OpenDoc` message targets the root handle `-1`; both subsequent
outbound messages — the `CreateObject` request and the `DoSave`
request — target exactly the application handle `h` returned by the
`OpenDoc` response; the correlation ids are assigned monotonically
increasing starting at 1; and after the save confirmation the driver
resolves with success. -/
theorem c6_handle_threading (sel linkId : String) (h : Int) :
    runSession sel linkId
        [⟨1, none, some h⟩, ⟨2, none, none⟩, ⟨3, none, none⟩] =
      ({ requestId := 4
         requests := [(1, .openApp), (2, .createObject), (3, .save)]
         appHandle := some h, closed := true },
       [.send { handle := some (-1), method := "OpenDoc"
                params := .docList [sel], id := 1 },
        .send { handle := some h, method := "CreateObject"
                params := .createObj "odagapplink" linkId, id := 2 },
        .send { handle := some h, method := "DoSave"
                params := .empty, id := 3 },
        .close none,
        .resolve "ODAG app link created and app saved"]) := by
  rfl

/-- C7 (amended): a correlated inbound response carrying an error field
makes the driver close the connection without a normal-closure status
code (which the peers observe as the non-normal close code 1005, not
1000), reject with a message consisting of the fixed prefix
`WebSocket error: ` followed by the remote error's verbatim message
text, and send nothing further in that transition; in particular, in a
session whose create-object response carries an error field, no `DoSave`
request is ever sent. -/
theorem c7_error_frame_terminal (linkId : String) (st : SessionState)
    (msg : InboundMsg) (em : String) (he : msg.error = some em) :
    onMessage linkId st msg =
      ({ st with closed := true },
        [.close none, .reject ("WebSocket error: " ++ em)])
    ∧ observedCloseCode none ≠ 1000
    ∧ (∀ sel : String,
        ((runSession sel linkId
            [⟨1, none, some 7⟩, ⟨2, some em, none⟩, ⟨3, none, none⟩]).2.all
          (fun a => !isSaveSend a)) = true) := by
  refine ⟨?_, by decide, ?_⟩
  · simp [onMessage, he]
  · intro sel
    rfl

theorem c7_error_frame_terminal_witness :
    onMessage "L1" ⟨2, [(1, .openApp)], some 7, false⟩ ⟨1, some "boom", none⟩ =
      (⟨2, [(1, .openApp)], some 7, true⟩,
        [.close none, .reject "WebSocket error: boom"]) :=
  (c7_error_frame_terminal "L1" ⟨2, [(1, .openApp)], some 7, false⟩
    ⟨1, some "boom", none⟩ "boom" rfl).1

/-- C7, claim as stated is false: on a create-object response carrying
the error message `boom`, the driver rejects with the message
`WebSocket error: boom`, which is not the remote error's verbatim
message text `boom` (the driver prefixes it). -/
theorem c7_counterexample :
    (onMessage "L1" ⟨2, [(1, .openApp)], some 7, false⟩
        ⟨1, some "boom", none⟩).2 =
      [.close none, .reject "WebSocket error: boom"]
    ∧ (∀ a ∈ (onMessage "L1" ⟨2, [(1, .openApp)], some 7, false⟩
        ⟨1, some "boom", none⟩).2, a ≠ .reject "boom")
    ∧ "WebSocket error: boom" ≠ "boom" := by
  decide

/-- C10: the pending-request table only ever grows — processing any
inbound message never removes an entry (every correlation id that
resolves before the step still resolves after it) — and consequently a
duplicate inbound message bearing an already-processed correlation id
re-executes that step's transition: a session delivered two `OpenDoc`
responses under the same correlation id 1 sends two `CreateObject`
requests, under the fresh correlation ids 2 and 3. -/
theorem c10_pending_table_grows :
    (∀ (linkId : String) (st : SessionState) (msg : InboundMsg) (k : Nat),
        (mapGet st.requests k).isSome = true →
        (mapGet (onMessage linkId st msg).1.requests k).isSome = true)
    ∧ (∀ sel linkId : String,
        (runSession sel linkId
            [⟨1, none, some 7⟩, ⟨1, none, some 9⟩]).2 =
          [.send { handle := some (-1), method := "OpenDoc"
                   params := .docList [sel], id := 1 },
           .send { handle := some 7, method := "CreateObject"
                   params := .createObj "odagapplink" linkId, id := 2 },
           .send { handle := some 9, method := "CreateObject"
                   params := .createObj "odagapplink" linkId, id := 3 }]) := by
  constructor
  · intro linkId st msg k h
    rcases msg with ⟨mid, merr, mh⟩
    cases merr with
    | some em => simpa [onMessage] using h
    | none =>
        cases hrt : mapGet st.requests mid with
        | none => simpa [onMessage, hrt] using h
        | some rk =>
            cases rk with
            | openApp =>
                cases mh with
                | some hh =>
                    simp [onMessage, hrt]
                    exact mapGet_mapSet_isSome _ _ _ _ h
                | none => simpa [onMessage, hrt] using h
            | createObject =>
                simp [onMessage, hrt]
                exact mapGet_mapSet_isSome _ _ _ _ h
            | save => simpa [onMessage, hrt] using h
  · intro sel linkId
    rfl

theorem c10_pending_table_grows_witness :
    (mapGet (onMessage "L1" ⟨2, [(1, .openApp)], none, false⟩
        ⟨1, none, some 7⟩).1.requests 1).isSome = true :=
  c10_pending_table_grows.1 "L1" ⟨2, [(1, .openApp)], none, false⟩
    ⟨1, none, some 7⟩ 1 (by decide)

theorem ensureAuth_already (env : Env) (st : CreatorState)
    (h : st.authenticated = true) :
    ensureAuthenticated env st = ([], st, Except.ok ()) := by
  simp [ensureAuthenticated, h]

theorem validateAppId_found (env : Env) (st : CreatorState) (a : String)
    (s : Nat) (info : AppInfo) (hauth : st.authenticated = true)
    (hresp : env.appResp a = .ok s info) (hid : truthyOpt info.id = true) :
    validateAppId env st a =
      ([.qrsApp a st.xrfKey], st,
        .ok (.found info.name (info.id.getD "") info.published)) := by
  simp [validateAppId, ensureAuth_already env st hauth, hresp, hid]

theorem validateAppId_404 (env : Env) (st : CreatorState) (a : String)
    (dm : Option String) (em : String) (hauth : st.authenticated = true)
    (hresp : env.appResp a = .httpError 404 dm em) :
    validateAppId env st a =
      ([.qrsApp a st.xrfKey], st,
        .ok (.notFound ("App ID not found: " ++ a))) := by
  simp [validateAppId, ensureAuth_already env st hauth, hresp]

theorem createODAGLink_ok (env : Env) (st : CreatorState) (lc : LinkConfig)
    (s : Nat) (b : CreateRespBody) (link : LinkResource)
    (hauth : st.authenticated = true) (hresp : env.createResp = .ok s b)
    (hx : extractLink b = some link) :
    createODAGLink env st lc =
      ([.odagCreate (buildOdagPayload lc) st.xrfKey], st, .ok link) := by
  simp [createODAGLink, ensureAuth_already env st hauth, hresp, hx]

/-- C9: each omitted policy block of the outbound creation payload is
filled with its documented default — row-estimation bounds with context
`User_*` and inclusive range 1 to 500000, retention of 10080 minutes
with context `User_*`, and a generated-name format string derived from
the link name — while any caller-supplied block is passed through in
its place, each of the three blocks independently of the others. -/
theorem c9_payload_defaults (lc : LinkConfig) :
    (lc.rowEstRange = none →
      (buildOdagPayload lc).rowEstRange = [⟨"User_*", 1, 500000⟩])
    ∧ (∀ r, lc.rowEstRange = some r → (buildOdagPayload lc).rowEstRange = r)
    ∧ (lc.appRetentionTime = none →
      (buildOdagPayload lc).appRetentionTime = [⟨"User_*", 10080⟩])
    ∧ (∀ r, lc.appRetentionTime = some r →
      (buildOdagPayload lc).appRetentionTime = r)
    ∧ (lc.genAppName = none →
      (buildOdagPayload lc).genAppName =
        [⟨"User_*", lc.name ++ " - $(user.name) - $(=Now())"⟩])
    ∧ (∀ g, lc.genAppName = some g → (buildOdagPayload lc).genAppName = g) := by
  refine ⟨fun h => ?_, fun r h => ?_, fun h => ?_, fun r h => ?_,
    fun h => ?_, fun g h => ?_⟩ <;> simp [buildOdagPayload, h]

theorem c9_payload_defaults_witness :
    (buildOdagPayload
        ⟨"N", "A", "B", "Sum(X)", none, none, none⟩).rowEstRange =
      [⟨"User_*", 1, 500000⟩]
    ∧ (buildOdagPayload
        ⟨"N", "A", "B", "Sum(X)", some [⟨"Ctx", 2, 3⟩], none, none⟩).rowEstRange =
      [⟨"Ctx", 2, 3⟩]
    ∧ (buildOdagPayload
        ⟨"N", "A", "B", "Sum(X)", none, none, none⟩).genAppName =
      [⟨"User_*", "N - $(user.name) - $(=Now())"⟩] :=
  ⟨(c9_payload_defaults ⟨"N", "A", "B", "Sum(X)", none, none, none⟩).1 rfl,
   (c9_payload_defaults
      ⟨"N", "A", "B", "Sum(X)", some [⟨"Ctx", 2, 3⟩], none, none⟩).2.1
     [⟨"Ctx", 2, 3⟩] rfl,
   (c9_payload_defaults ⟨"N", "A", "B", "Sum(X)", none, none, none⟩).2.2.2.2.1 rfl⟩

/-- C5: link creation succeeds exactly when the HTTP call resolves (2xx)
and the response body carries a server-issued identifier in one of the
two accepted shapes — the nested object-definition wrapper is returned
unchanged and the flat resource body is normalised to the link
resource — a 2xx body with neither shape fails with the no-id error;
and a non-2xx response fails with the typed error chosen solely by the
status code: 400 bad request, 401 unauthorized, 403 forbidden, 404
service-not-found, 405 method-not-allowed, 500 server error, and any
other status the unexpected-status error carrying that code. -/
theorem c5_status_mapping (env : Env) (st : CreatorState) (lc : LinkConfig)
    (hauth : st.authenticated = true) :
    (∀ s b link, env.createResp = .ok s b → extractLink b = some link →
        (createODAGLink env st lc).2.2 = .ok link)
    ∧ (∀ s b, env.createResp = .ok s b → extractLink b = none →
        (createODAGLink env st lc).2.2 =
          .error (.generic "Failed to create ODAG link - no ID returned"))
    ∧ (∀ b od, b.objectDef = some od → truthyOpt od.id = true →
        extractLink b = some od)
    ∧ (∀ b, b.objectDef = none → truthyOpt b.id = true →
        extractLink b = some ⟨b.id, b.rest⟩)
    ∧ (∀ s dm em, env.createResp = .httpError s dm em →
        (createODAGLink env st lc).2.2 = .error (statusError s dm em))
    ∧ (∀ dm em, statusError 400 dm em = .badRequest dm
        ∧ statusError 401 dm em = .unauthorized
        ∧ statusError 403 dm em = .forbidden
        ∧ statusError 404 dm em = .serviceNotFound
        ∧ statusError 405 dm em = .methodNotAllowed
        ∧ statusError 500 dm em = .serverError dm)
    ∧ (∀ s dm em, s ≠ 400 → s ≠ 401 → s ≠ 403 → s ≠ 404 → s ≠ 405 →
        s ≠ 500 →
        statusError s dm em = .unexpectedStatus s (orElseStr dm em)) := by
  refine ⟨?_, ?_, ?_, ?_, ?_, ?_, ?_⟩
  · intro s b link hresp hx
    simp [createODAGLink_ok env st lc s b link hauth hresp hx]
  · intro s b hresp hx
    simp [createODAGLink, ensureAuth_already env st hauth, hresp, hx]
  · intro b od hod hid
    simp [extractLink, hod, hid]
  · intro b hod hid
    simp [extractLink, hod, hid]
  · intro s dm em hresp
    simp [createODAGLink, ensureAuth_already env st hauth, hresp]
  · intro dm em
    refine ⟨rfl, rfl, rfl, rfl, rfl, rfl⟩
  · intro s dm em h1 h2 h3 h4 h5 h6
    simp [statusError, h1, h2, h3, h4, h5, h6]

/-- A concrete already-authenticated instance state used in the
concrete scenarios below. -/
def stA : CreatorState := ⟨"abcd1234efgh5678", true⟩

/-- A concrete not-yet-authenticated instance state. -/
def stF : CreatorState := ⟨"abcd1234efgh5678", false⟩

/-- Concrete metadata body for the selection application `A`. -/
def infoA : AppInfo := ⟨some "A", "SelApp", true⟩

/-- Concrete metadata body for the template application `B`. -/
def infoB : AppInfo := ⟨some "B", "TmplApp", false⟩

/-- Concrete lookup oracle: `A` and `B` exist, everything else is a
remote 404. -/
def appRespAB : String → HttpResult AppInfo := fun i =>
  if i = "A" then .ok 200 infoA
  else if i = "B" then .ok 200 infoB
  else .httpError 404 none "Request failed with status code 404"

/-- Concrete creation-response body in the nested object-definition
shape, carrying the server-issued id `L1`. -/
def bodyNested : CreateRespBody := ⟨some ⟨some "L1", "objectDef"⟩, none, "body"⟩

/-- Concrete environment in which every leg succeeds. -/
def envHappy : Env :=
  ⟨.ok 200 (), appRespAB, .ok 201 bodyNested,
    .ok "ODAG app link created and app saved"⟩

/-- Concrete environment in which only the navigation leg fails. -/
def envNavFail : Env :=
  { envHappy with navResult := .error "WebSocket error: boom" }

/-- Concrete environment in which the selection-application lookup
reports 404. -/
def envSelMissing : Env :=
  { envHappy with
      appResp := fun i =>
        if i = "B" then .ok 200 infoB
        else .httpError 404 none "Request failed with status code 404" }

/-- A concrete well-formed request. -/
def optsOk : Options :=
  ⟨some "Sales Detail", some "A", some "B", some "Sum(X)",
    none, none, none, none⟩

/-- The same request with `linkName` omitted. -/
def optsNoName : Options := { optsOk with linkName := none }

theorem c5_status_mapping_witness :
    (createODAGLink envHappy stA
        ⟨"Sales Detail", "A", "B", "Sum(X)", none, none, none⟩).2.2 =
      .ok ⟨some "L1", "objectDef"⟩
    ∧ statusError 404 none "x" = .serviceNotFound :=
  ⟨(c5_status_mapping envHappy stA
      ⟨"Sales Detail", "A", "B", "Sum(X)", none, none, none⟩ rfl).1
        201 bodyNested ⟨some "L1", "objectDef"⟩ rfl rfl,
   ((c5_status_mapping envHappy stA
      ⟨"Sales Detail", "A", "B", "Sum(X)", none, none, none⟩ rfl).2.2.2.2.2.1
        none "x").2.2.2.1⟩

/-- C3: for every valid request in which both application ids resolve
(a 2xx metadata body with a truthy id each) and both remote calls
succeed (the creation response carries an id in an accepted shape and
the navigation leg resolves), the orchestrator returns the success
outcome containing exactly the link id returned by the creation call
and the application names returned by the two validation lookups. -/
theorem c3_success_outcome (env : Env) (st : CreatorState) (opts : Options)
    (s1 s2 s3 : Nat) (ia ib : AppInfo) (b : CreateRespBody)
    (link : LinkResource) (nm : String)
    (hauth : st.authenticated = true)
    (hsel : truthyOpt opts.selectionAppId = true)
    (htm : truthyOpt opts.templateAppId = true)
    (hln : truthyOpt opts.linkName = true)
    (hre : truthyOpt opts.rowEstExpr = true)
    (hA : env.appResp (opts.selectionAppId.getD "") = .ok s1 ia)
    (hia : truthyOpt ia.id = true)
    (hB : env.appResp (opts.templateAppId.getD "") = .ok s2 ib)
    (hib : truthyOpt ib.id = true)
    (hC : env.createResp = .ok s3 b)
    (hx : extractLink b = some link)
    (hn : env.navResult = .ok nm) :
    (createCompleteODAGLink env st opts).2.2 =
      { success := true, isPartial := false
        odagLinkId := link.id
        selectionAppId := some (opts.selectionAppId.getD "")
        templateAppId := some (opts.templateAppId.getD "")
        selectionAppName := some ia.name
        templateAppName := some ib.name
        message := some "ODAG link created and registered in Hub successfully"
        navigationLinkError := none, manualSteps := none, error := none } := by
  simp [createCompleteODAGLink, ensureAuth_already env st hauth,
    hsel, htm, hln, hre,
    validateAppId_found env st (opts.selectionAppId.getD "") s1 ia hauth hA hia,
    validateAppId_found env st (opts.templateAppId.getD "") s2 ib hauth hB hib,
    createODAGLink, hC, hx, hn]

theorem c3_success_outcome_witness :
    (createCompleteODAGLink envHappy stA optsOk).2.2 =
      { success := true, isPartial := false
        odagLinkId := some "L1"
        selectionAppId := some "A", templateAppId := some "B"
        selectionAppName := some "SelApp", templateAppName := some "TmplApp"
        message := some "ODAG link created and registered in Hub successfully"
        navigationLinkError := none, manualSteps := none, error := none } :=
  c3_success_outcome envHappy stA optsOk 200 200 201 infoA infoB bodyNested
    ⟨some "L1", "objectDef"⟩ "ODAG app link created and app saved"
    rfl rfl rfl rfl rfl rfl rfl rfl rfl rfl rfl rfl

/-- C1 (amended): for every request in which the link-creation call has
succeeded but the navigation-registration leg fails, the orchestrator
returns a partial-success outcome — `success` stays true, never a bare
failure — carrying the same link id the success path would have carried
(the id extracted from the creation response), both resolved
application names, and the navigation-leg error message, together with
a message saying the navigation link must be added manually; the
result carries no enumerated list of manual remediation steps (the
`manualSteps` field is absent — that list exists only in the legacy
variant of the orchestrator). -/
theorem c1_partial_success (env : Env) (st : CreatorState) (opts : Options)
    (s1 s2 s3 : Nat) (ia ib : AppInfo) (b : CreateRespBody)
    (link : LinkResource) (nm : String)
    (hauth : st.authenticated = true)
    (hsel : truthyOpt opts.selectionAppId = true)
    (htm : truthyOpt opts.templateAppId = true)
    (hln : truthyOpt opts.linkName = true)
    (hre : truthyOpt opts.rowEstExpr = true)
    (hA : env.appResp (opts.selectionAppId.getD "") = .ok s1 ia)
    (hia : truthyOpt ia.id = true)
    (hB : env.appResp (opts.templateAppId.getD "") = .ok s2 ib)
    (hib : truthyOpt ib.id = true)
    (hC : env.createResp = .ok s3 b)
    (hx : extractLink b = some link)
    (hn : env.navResult = .error nm) :
    (createCompleteODAGLink env st opts).2.2 =
      { success := true, isPartial := true
        odagLinkId := link.id
        selectionAppId := some (opts.selectionAppId.getD "")
        templateAppId := some (opts.templateAppId.getD "")
        selectionAppName := some ia.name
        templateAppName := some ib.name
        message := some
          "ODAG link created successfully. Navigation link must be added manually."
        navigationLinkError := some nm
        manualSteps := none, error := none } := by
  simp [createCompleteODAGLink, ensureAuth_already env st hauth,
    hsel, htm, hln, hre,
    validateAppId_found env st (opts.selectionAppId.getD "") s1 ia hauth hA hia,
    validateAppId_found env st (opts.templateAppId.getD "") s2 ib hauth hB hib,
    createODAGLink, hC, hx, hn]

theorem c1_partial_success_witness :
    (createCompleteODAGLink envNavFail stA optsOk).2.2 =
      { success := true, isPartial := true
        odagLinkId := some "L1"
        selectionAppId := some "A", templateAppId := some "B"
        selectionAppName := some "SelApp", templateAppName := some "TmplApp"
        message := some
          "ODAG link created successfully. Navigation link must be added manually."
        navigationLinkError := some "WebSocket error: boom"
        manualSteps := none, error := none } :=
  c1_partial_success envNavFail stA optsOk 200 200 201 infoA infoB bodyNested
    ⟨some "L1", "objectDef"⟩ "WebSocket error: boom"
    rfl rfl rfl rfl rfl rfl rfl rfl rfl rfl rfl rfl

/-- C1, claim as stated is false: in a concrete run where the link is
created (id `L1`) and the navigation leg then fails, the returned
partial-success outcome carries no manual-remediation list at all
(`manualSteps` is absent), so it does not carry a non-empty enumerated
list of manual remediation steps. -/
theorem c1_counterexample :
    (createCompleteODAGLink envNavFail stA optsOk).2.2.isPartial = true
    ∧ (createCompleteODAGLink envNavFail stA optsOk).2.2.odagLinkId = some "L1"
    ∧ (createCompleteODAGLink envNavFail stA optsOk).2.2.navigationLinkError =
        some "WebSocket error: boom"
    ∧ (createCompleteODAGLink envNavFail stA optsOk).2.2.manualSteps = none
    ∧ ¬∃ steps, (createCompleteODAGLink envNavFail stA optsOk).2.2.manualSteps =
          some steps ∧ steps ≠ [] := by
  have h0 : (createCompleteODAGLink envNavFail stA optsOk).2.2.manualSteps = none := by
    decide
  refine ⟨by decide, by decide, by decide, h0, ?_⟩
  rintro ⟨steps, hs, -⟩
  rw [h0] at hs
  exact Option.noConfusion hs

theorem parts_eq {α : Type} {p : List RemoteCall × CreatorState × α}
    {a : List RemoteCall} {b : CreatorState} {c : α} (h : p = (a, b, c)) :
    p.1 = a ∧ p.2.2 = c := by
  subst h
  exact ⟨rfl, rfl⟩

/-- C2: for every request whose metadata lookup reports the selection or
the template application id invalid (a remote 404, the other lookup
also completing with a report), the orchestrator never issues the
link-creation call — no mutating call is made against a non-existent
application — and the result is a total failure whose error message
names the offending application id. -/
theorem c2_no_create_on_invalid (env : Env) (st : CreatorState)
    (opts : Options)
    (hauth : st.authenticated = true)
    (hsel : truthyOpt opts.selectionAppId = true)
    (htm : truthyOpt opts.templateAppId = true)
    (hln : truthyOpt opts.linkName = true)
    (hre : truthyOpt opts.rowEstExpr = true)
    (hinv :
      ((∃ dm em, env.appResp (opts.selectionAppId.getD "") =
          .httpError 404 dm em)
        ∧ ((∃ s info, env.appResp (opts.templateAppId.getD "") = .ok s info
              ∧ truthyOpt info.id = true)
          ∨ ∃ dm em, env.appResp (opts.templateAppId.getD "") =
              .httpError 404 dm em))
      ∨ ((∃ s info, env.appResp (opts.selectionAppId.getD "") = .ok s info
            ∧ truthyOpt info.id = true)
        ∧ ∃ dm em, env.appResp (opts.templateAppId.getD "") =
            .httpError 404 dm em)) :
    (∀ c ∈ (createCompleteODAGLink env st opts).1, isCreateCall c = false)
    ∧ (createCompleteODAGLink env st opts).2.2.success = false
    ∧ ((createCompleteODAGLink env st opts).2.2.error =
        some ("Selection app validation failed: App ID not found: " ++
          opts.selectionAppId.getD "")
      ∨ (createCompleteODAGLink env st opts).2.2.error =
        some ("Template app validation failed: App ID not found: " ++
          opts.templateAppId.getD "")) := by
  have trace2 :
      ∀ r : CompleteResult,
        createCompleteODAGLink env st opts =
          ([.qrsApp (opts.selectionAppId.getD "") st.xrfKey,
            .qrsApp (opts.templateAppId.getD "") st.xrfKey], st, r) →
        (∀ c ∈ (createCompleteODAGLink env st opts).1,
            isCreateCall c = false)
        ∧ (createCompleteODAGLink env st opts).2.2.success = r.success
        ∧ (createCompleteODAGLink env st opts).2.2.error = r.error := by
    intro r hrun
    obtain ⟨ht, hr⟩ := parts_eq hrun
    refine ⟨?_, by rw [hr], by rw [hr]⟩
    intro c hc
    rw [ht] at hc
    simp only [List.mem_cons, List.mem_singleton, List.not_mem_nil,
      or_false] at hc
    rcases hc with hc | hc
    · rw [hc]; rfl
    · rw [hc]; rfl
  rcases hinv with ⟨⟨dm, em, hA4⟩, htm2⟩ | ⟨⟨s1, ia, hB1, hib1⟩, dm, em, hB4⟩
  · have hv1 := validateAppId_404 env st (opts.selectionAppId.getD "")
      dm em hauth hA4
    rcases htm2 with ⟨s2, ib, hB1, hib1⟩ | ⟨dm2, em2, hB4⟩
    · have hv2 := validateAppId_found env st (opts.templateAppId.getD "")
        s2 ib hauth hB1 hib1
      have hrun : createCompleteODAGLink env st opts =
          ([.qrsApp (opts.selectionAppId.getD "") st.xrfKey,
            .qrsApp (opts.templateAppId.getD "") st.xrfKey], st,
            failResult ("Selection app validation failed: " ++
              ("App ID not found: " ++ opts.selectionAppId.getD ""))) := by
        simp [createCompleteODAGLink, ensureAuth_already env st hauth,
          hsel, htm, hln, hre, hv1, hv2]
      obtain ⟨h1, h2, h3⟩ := trace2 _ hrun
      exact ⟨h1, by rw [h2]; rfl, Or.inl (by rw [h3]; rfl)⟩
    · have hv2 := validateAppId_404 env st (opts.templateAppId.getD "")
        dm2 em2 hauth hB4
      have hrun : createCompleteODAGLink env st opts =
          ([.qrsApp (opts.selectionAppId.getD "") st.xrfKey,
            .qrsApp (opts.templateAppId.getD "") st.xrfKey], st,
            failResult ("Selection app validation failed: " ++
              ("App ID not found: " ++ opts.selectionAppId.getD ""))) := by
        simp [createCompleteODAGLink, ensureAuth_already env st hauth,
          hsel, htm, hln, hre, hv1, hv2]
      obtain ⟨h1, h2, h3⟩ := trace2 _ hrun
      exact ⟨h1, by rw [h2]; rfl, Or.inl (by rw [h3]; rfl)⟩
  · have hv1 := validateAppId_found env st (opts.selectionAppId.getD "")
      s1 ia hauth hB1 hib1
    have hv2 := validateAppId_404 env st (opts.templateAppId.getD "")
      dm em hauth hB4
    have hrun : createCompleteODAGLink env st opts =
        ([.qrsApp (opts.selectionAppId.getD "") st.xrfKey,
          .qrsApp (opts.templateAppId.getD "") st.xrfKey], st,
          failResult ("Template app validation failed: " ++
            ("App ID not found: " ++ opts.templateAppId.getD ""))) := by
      simp [createCompleteODAGLink, ensureAuth_already env st hauth,
        hsel, htm, hln, hre, hv1, hv2]
    obtain ⟨h1, h2, h3⟩ := trace2 _ hrun
    exact ⟨h1, by rw [h2]; rfl, Or.inr (by rw [h3]; rfl)⟩

theorem c2_no_create_on_invalid_witness :
    (∀ c ∈ (createCompleteODAGLink envSelMissing stA optsOk).1,
        isCreateCall c = false)
    ∧ (createCompleteODAGLink envSelMissing stA optsOk).2.2.success = false
    ∧ ((createCompleteODAGLink envSelMissing stA optsOk).2.2.error =
        some ("Selection app validation failed: App ID not found: " ++
          optsOk.selectionAppId.getD "")
      ∨ (createCompleteODAGLink envSelMissing stA optsOk).2.2.error =
        some ("Template app validation failed: App ID not found: " ++
          optsOk.templateAppId.getD "")) :=
  c2_no_create_on_invalid envSelMissing stA optsOk rfl rfl rfl rfl rfl
    (Or.inl ⟨⟨none, "Request failed with status code 404", rfl⟩,
      Or.inl ⟨200, infoB, rfl, rfl⟩⟩)

theorem ensureAuth_ok_shape (env : Env) (st : CreatorState)
    (h : st.authenticated = true ∨ ∃ s, env.authResult = HttpResult.ok s ()) :
    ∃ c0 st0, ensureAuthenticated env st = (c0, st0, Except.ok ())
      ∧ (∀ c ∈ c0, isAuthCall c = true)
      ∧ (st.authenticated = true → c0 = []) := by
  by_cases hA : st.authenticated = true
  · exact ⟨[], st, ensureAuth_already env st hA,
      fun c hc => absurd hc (List.not_mem_nil c), fun _ => rfl⟩
  · have hA2 : st.authenticated = false := by
      revert hA
      cases st.authenticated <;> simp
    rcases h with h | ⟨s, hok⟩
    · exact absurd h hA
    · by_cases hs : s = 200
      · subst hs
        refine ⟨[.qrsAbout st.xrfKey], { st with authenticated := true },
          ?_, ?_, fun hh => absurd hh hA⟩
        · simp [ensureAuthenticated, hA2, authenticate, hok]
        · intro c hc
          simp only [List.mem_singleton] at hc
          rw [hc]
          rfl
      · refine ⟨[.qrsAbout st.xrfKey], st, ?_, ?_, fun hh => absurd hh hA⟩
        · simp [ensureAuthenticated, hA2, authenticate, hok, hs]
        · intro c hc
          simp only [List.mem_singleton] at hc
          rw [hc]
          rfl

/-- C4 (amended): when the instance is already authenticated, or the
authentication probe succeeds, a request missing `linkName`,
`rowEstExpr`, or either application identifier fails fast with a
missing-field error naming the missing field (or, for the identifiers,
naming both identifier fields), and the orchestrator issues no
validation, link-creation, or navigation call — every recorded call is
the authentication probe, and when the instance was already
authenticated no remote call at all is issued before failing. -/
theorem c4_missing_field (env : Env) (st : CreatorState) (opts : Options)
    (hauthok : st.authenticated = true ∨ ∃ s, env.authResult = HttpResult.ok s ())
    (hmiss : truthyOpt opts.selectionAppId = false
      ∨ truthyOpt opts.templateAppId = false
      ∨ truthyOpt opts.linkName = false
      ∨ truthyOpt opts.rowEstExpr = false) :
    (createCompleteODAGLink env st opts).2.2.success = false
    ∧ ((createCompleteODAGLink env st opts).2.2.error =
          some "Missing required fields: selectionAppId and templateAppId are required"
      ∨ (createCompleteODAGLink env st opts).2.2.error =
          some "Missing required field: linkName"
      ∨ (createCompleteODAGLink env st opts).2.2.error =
          some "Missing required field: rowEstExpr")
    ∧ (∀ c ∈ (createCompleteODAGLink env st opts).1, isAuthCall c = true)
    ∧ (st.authenticated = true → (createCompleteODAGLink env st opts).1 = []) := by
  obtain ⟨c0, st0, hens, hc0, hc0e⟩ := ensureAuth_ok_shape env st hauthok
  have finish : ∀ m : String,
      createCompleteODAGLink env st opts = (c0, st0, failResult m) →
      (createCompleteODAGLink env st opts).2.2.success = false
      ∧ (createCompleteODAGLink env st opts).2.2.error = some m
      ∧ (∀ c ∈ (createCompleteODAGLink env st opts).1, isAuthCall c = true)
      ∧ (st.authenticated = true →
          (createCompleteODAGLink env st opts).1 = []) := by
    intro m hrun
    obtain ⟨ht, hr⟩ := parts_eq hrun
    refine ⟨by rw [hr]; rfl, by rw [hr]; rfl, ?_,
      fun ha => by rw [ht]; exact hc0e ha⟩
    intro c hc
    rw [ht] at hc
    exact hc0 c hc
  cases h1 : truthyOpt opts.selectionAppId with
  | false =>
      have hrun : createCompleteODAGLink env st opts = (c0, st0, failResult
          "Missing required fields: selectionAppId and templateAppId are required") := by
        simp [createCompleteODAGLink, hens, h1]
      obtain ⟨f1, f2, f3, f4⟩ := finish _ hrun
      exact ⟨f1, Or.inl f2, f3, f4⟩
  | true =>
      cases h2 : truthyOpt opts.templateAppId with
      | false =>
          have hrun : createCompleteODAGLink env st opts = (c0, st0, failResult
              "Missing required fields: selectionAppId and templateAppId are required") := by
            simp [createCompleteODAGLink, hens, h1, h2]
          obtain ⟨f1, f2, f3, f4⟩ := finish _ hrun
          exact ⟨f1, Or.inl f2, f3, f4⟩
      | true =>
          cases h3 : truthyOpt opts.linkName with
          | false =>
              have hrun : createCompleteODAGLink env st opts = (c0, st0,
                  failResult "Missing required field: linkName") := by
                simp [createCompleteODAGLink, hens, h1, h2, h3]
              obtain ⟨f1, f2, f3, f4⟩ := finish _ hrun
              exact ⟨f1, Or.inr (Or.inl f2), f3, f4⟩
          | true =>
              cases h4 : truthyOpt opts.rowEstExpr with
              | false =>
                  have hrun : createCompleteODAGLink env st opts = (c0, st0,
                      failResult "Missing required field: rowEstExpr") := by
                    simp [createCompleteODAGLink, hens, h1, h2, h3, h4]
                  obtain ⟨f1, f2, f3, f4⟩ := finish _ hrun
                  exact ⟨f1, Or.inr (Or.inr f2), f3, f4⟩
              | true =>
                  rcases hmiss with h | h | h | h <;> simp_all

theorem c4_missing_field_witness :
    (createCompleteODAGLink envHappy stA optsNoName).2.2.success = false
    ∧ (createCompleteODAGLink envHappy stA optsNoName).1 = [] :=
  ⟨(c4_missing_field envHappy stA optsNoName (Or.inl rfl)
      (Or.inr (Or.inr (Or.inl rfl)))).1,
   (c4_missing_field envHappy stA optsNoName (Or.inl rfl)
      (Or.inr (Or.inr (Or.inl rfl)))).2.2.2 rfl⟩

/-- C4, claim as stated is false: on a not-yet-authenticated instance, a
request missing `linkName` does fail with the missing-field error, but
the orchestrator has already issued one remote call before failing —
the authentication probe runs before the field checks — so the claim
that no remote calls of any kind are issued before failing does not
hold. -/
theorem c4_counterexample :
    (createCompleteODAGLink envHappy stF optsNoName).1 =
      [.qrsAbout "abcd1234efgh5678"]
    ∧ (createCompleteODAGLink envHappy stF optsNoName).1 ≠ []
    ∧ (createCompleteODAGLink envHappy stF optsNoName).2.2 =
        failResult "Missing required field: linkName" := by
  refine ⟨rfl, by decide, rfl⟩

theorem ensureAuth_shape (env : Env) (st : CreatorState) :
    ensureAuthenticated env st = ([], st, Except.ok ())
    ∨ ensureAuthenticated env st =
        ([.qrsAbout st.xrfKey], { st with authenticated := true }, Except.ok ())
    ∨ ensureAuthenticated env st = ([.qrsAbout st.xrfKey], st, Except.ok ())
    ∨ ∃ m, ensureAuthenticated env st =
        ([.qrsAbout st.xrfKey], st, Except.error m) := by
  cases hA : st.authenticated with
  | true => exact Or.inl (by simp [ensureAuthenticated, hA])
  | false =>
      cases hr : env.authResult with
      | ok s b =>
          by_cases hs : s = 200
          · exact Or.inr (Or.inl (by simp [ensureAuthenticated, authenticate, hA, hr, hs]))
          · exact Or.inr (Or.inr (Or.inl (by simp [ensureAuthenticated, authenticate, hA, hr, hs])))
      | httpError s dm em =>
          exact Or.inr (Or.inr (Or.inr ⟨"Authentication failed: " ++ em,
            by simp [ensureAuthenticated, authenticate, hA, hr]⟩))
      | transportError em =>
          exact Or.inr (Or.inr (Or.inr ⟨"Authentication failed: " ++ em,
            by simp [ensureAuthenticated, authenticate, hA, hr]⟩))

theorem validateAppId_xrf (env : Env) (st : CreatorState) (a : String) :
    (validateAppId env st a).2.1.xrfKey = st.xrfKey
    ∧ ∀ c ∈ (validateAppId env st a).1, callXrf c = st.xrfKey := by
  rcases ensureAuth_shape env st with hE | hE | hE | ⟨m, hE⟩ <;>
    cases h : env.appResp a <;>
      simp [validateAppId, hE, h, callXrf] <;>
        split_ifs <;>
          simp [callXrf]

theorem createODAGLink_xrf (env : Env) (st : CreatorState) (lc : LinkConfig) :
    (createODAGLink env st lc).2.1.xrfKey = st.xrfKey
    ∧ ∀ c ∈ (createODAGLink env st lc).1, callXrf c = st.xrfKey := by
  rcases ensureAuth_shape env st with hE | hE | hE | ⟨m, hE⟩ <;>
    cases h : env.createResp <;>
      simp [createODAGLink, hE, h, callXrf] <;>
        (try split) <;> simp [callXrf]

theorem testConnection_xrf (env : Env) (st : CreatorState) :
    (testConnection env st).2.1.xrfKey = st.xrfKey
    ∧ ∀ c ∈ (testConnection env st).1, callXrf c = st.xrfKey := by
  cases h : env.authResult with
  | ok s b =>
      by_cases hs : s = 200 <;>
        simp [testConnection, authenticate, h, hs, callXrf]
  | httpError s dm em => simp [testConnection, authenticate, h, callXrf]
  | transportError em => simp [testConnection, authenticate, h, callXrf]

theorem parts3 {α : Type} {p : List RemoteCall × CreatorState × α}
    {a : List RemoteCall} {b : CreatorState} {c : α} (h : p = (a, b, c)) :
    p.1 = a ∧ p.2.1 = b ∧ p.2.2 = c := by
  subst h
  exact ⟨rfl, rfl, rfl⟩

theorem createCompleteODAGLink_xrf (env : Env) (st : CreatorState)
    (opts : Options) :
    (createCompleteODAGLink env st opts).2.1.xrfKey = st.xrfKey
    ∧ ∀ c ∈ (createCompleteODAGLink env st opts).1,
        callXrf c = st.xrfKey := by
  have glue : ∀ (t : List RemoteCall) (stf : CreatorState)
      (r : CompleteResult),
      createCompleteODAGLink env st opts = (t, stf, r) →
      stf.xrfKey = st.xrfKey →
      (∀ c ∈ t, callXrf c = st.xrfKey) →
      (createCompleteODAGLink env st opts).2.1.xrfKey = st.xrfKey
      ∧ ∀ c ∈ (createCompleteODAGLink env st opts).1,
          callXrf c = st.xrfKey := by
    intro t stf r hrun hks hcs
    obtain ⟨ht, hst, _⟩ := parts3 hrun
    refine ⟨by rw [hst]; exact hks, ?_⟩
    intro c hc
    rw [ht] at hc
    exact hcs c hc
  have tail : ∀ (c1 : List RemoteCall) (st1 : CreatorState),
      ensureAuthenticated env st = (c1, st1, Except.ok ()) →
      st1.xrfKey = st.xrfKey →
      (∀ c ∈ c1, callXrf c = st.xrfKey) →
      (createCompleteODAGLink env st opts).2.1.xrfKey = st.xrfKey
      ∧ ∀ c ∈ (createCompleteODAGLink env st opts).1,
          callXrf c = st.xrfKey := by
    intro c1 st1 hE hk1 hc1
    by_cases hf1 : truthyOpt opts.selectionAppId ∧ truthyOpt opts.templateAppId
    case neg =>
      have hrun : createCompleteODAGLink env st opts = (c1, st1, failResult
          "Missing required fields: selectionAppId and templateAppId are required") := by
        simp [createCompleteODAGLink, hE, hf1]
      exact glue _ _ _ hrun hk1 hc1
    case pos =>
    cases h3 : truthyOpt opts.linkName with
    | false =>
        have hrun : createCompleteODAGLink env st opts = (c1, st1,
            failResult "Missing required field: linkName") := by
          simp [createCompleteODAGLink, hE, hf1.1, hf1.2, h3]
        exact glue _ _ _ hrun hk1 hc1
    | true =>
    cases h4 : truthyOpt opts.rowEstExpr with
    | false =>
        have hrun : createCompleteODAGLink env st opts = (c1, st1,
            failResult "Missing required field: rowEstExpr") := by
          simp [createCompleteODAGLink, hE, hf1.1, hf1.2, h3, h4]
        exact glue _ _ _ hrun hk1 hc1
    | true =>
    obtain ⟨hk2a, hc2a⟩ :=
      validateAppId_xrf env st1 (opts.selectionAppId.getD "")
    rcases hV1 : validateAppId env st1 (opts.selectionAppId.getD "")
      with ⟨c2, st2, rv1⟩
    rw [hV1] at hk2a hc2a
    simp only at hk2a hc2a
    have hk2 : st2.xrfKey = st.xrfKey := hk2a.trans hk1
    have hc2 : ∀ c ∈ c2, callXrf c = st.xrfKey := fun c hc =>
      (hc2a c hc).trans hk1
    have hc12 : ∀ c ∈ c1 ++ c2, callXrf c = st.xrfKey := by
      intro c hc
      rcases List.mem_append.mp hc with h | h
      · exact hc1 c h
      · exact hc2 c h
    cases rv1 with
    | error m =>
        have hrun : createCompleteODAGLink env st opts =
            (c1 ++ c2, st2, failResult m) := by
          simp [createCompleteODAGLink, hE, hf1.1, hf1.2, h3, h4, hV1]
        exact glue _ _ _ hrun hk2 hc12
    | ok sv =>
    obtain ⟨hk3a, hc3a⟩ :=
      validateAppId_xrf env st2 (opts.templateAppId.getD "")
    rcases hV2 : validateAppId env st2 (opts.templateAppId.getD "")
      with ⟨c3, st3, rv2⟩
    rw [hV2] at hk3a hc3a
    simp only at hk3a hc3a
    have hk3 : st3.xrfKey = st.xrfKey := hk3a.trans hk2
    have hc3 : ∀ c ∈ c3, callXrf c = st.xrfKey := fun c hc =>
      (hc3a c hc).trans hk2
    have hc123 : ∀ c ∈ c1 ++ c2 ++ c3, callXrf c = st.xrfKey := by
      intro c hc
      rcases List.mem_append.mp hc with h | h
      · exact hc12 c h
      · exact hc3 c h
    cases rv2 with
    | error m =>
        have hrun : createCompleteODAGLink env st opts =
            (c1 ++ c2 ++ c3, st3, failResult m) := by
          simp [createCompleteODAGLink, hE, hf1.1, hf1.2, h3, h4, hV1, hV2]
        exact glue _ _ _ hrun hk3 hc123
    | ok tv =>
    cases sv with
    | notFound e =>
        have hrun : createCompleteODAGLink env st opts =
            (c1 ++ c2 ++ c3, st3,
              failResult ("Selection app validation failed: " ++ e)) := by
          simp [createCompleteODAGLink, hE, hf1.1, hf1.2, h3, h4, hV1, hV2]
        exact glue _ _ _ hrun hk3 hc123
    | found sname sid spub =>
    cases tv with
    | notFound e =>
        have hrun : createCompleteODAGLink env st opts =
            (c1 ++ c2 ++ c3, st3,
              failResult ("Template app validation failed: " ++ e)) := by
          simp [createCompleteODAGLink, hE, hf1.1, hf1.2, h3, h4, hV1, hV2]
        exact glue _ _ _ hrun hk3 hc123
    | found tname tid tpub =>
    obtain ⟨hk4a, hc4a⟩ := createODAGLink_xrf env st3
      { name := opts.linkName.getD ""
        selectionAppId := opts.selectionAppId.getD ""
        templateAppId := opts.templateAppId.getD ""
        rowEstExpr := opts.rowEstExpr.getD ""
        rowEstRange := opts.rowEstRange
        appRetentionTime := opts.appRetentionTime
        genAppName := opts.genAppName }
    rcases hC : createODAGLink env st3
      { name := opts.linkName.getD ""
        selectionAppId := opts.selectionAppId.getD ""
        templateAppId := opts.templateAppId.getD ""
        rowEstExpr := opts.rowEstExpr.getD ""
        rowEstRange := opts.rowEstRange
        appRetentionTime := opts.appRetentionTime
        genAppName := opts.genAppName } with ⟨c4, st4, rc⟩
    rw [hC] at hk4a hc4a
    simp only at hk4a hc4a
    have hk4 : st4.xrfKey = st.xrfKey := hk4a.trans hk3
    have hc4 : ∀ c ∈ c4, callXrf c = st.xrfKey := fun c hc =>
      (hc4a c hc).trans hk3
    have hc1234 : ∀ c ∈ c1 ++ c2 ++ c3 ++ c4, callXrf c = st.xrfKey := by
      intro c hc
      rcases List.mem_append.mp hc with h | h
      · exact hc123 c h
      · exact hc4 c h
    cases rc with
    | error e =>
        have hrun : createCompleteODAGLink env st opts =
            (c1 ++ c2 ++ c3 ++ c4, st4,
              failResult (odagErrorMessage e)) := by
          simp [createCompleteODAGLink, hE, hf1.1, hf1.2, h3, h4, hV1, hV2, hC]
        exact glue _ _ _ hrun hk4 hc1234
    | ok link =>
    have hcnav : ∀ c ∈ c1 ++ c2 ++ c3 ++ c4 ++
        [RemoteCall.navRegister (opts.selectionAppId.getD "")
          link.id st4.xrfKey], callXrf c = st.xrfKey := by
      intro c hc
      rcases List.mem_append.mp hc with h | h
      · exact hc1234 c h
      · rw [List.mem_singleton.mp h]
        exact hk4
    cases hN : env.navResult with
    | ok nm =>
        have hrun : createCompleteODAGLink env st opts =
            (c1 ++ c2 ++ c3 ++ c4 ++
              [RemoteCall.navRegister (opts.selectionAppId.getD "")
                link.id st4.xrfKey], st4,
              { success := true, isPartial := false
                odagLinkId := link.id
                selectionAppId := some (opts.selectionAppId.getD "")
                templateAppId := some (opts.templateAppId.getD "")
                selectionAppName := some sname
                templateAppName := some tname
                message := some
                  "ODAG link created and registered in Hub successfully"
                navigationLinkError := none
                manualSteps := none, error := none }) := by
          simp [createCompleteODAGLink, hE, hf1.1, hf1.2, h3, h4, hV1, hV2,
            hC, hN]
        exact glue _ _ _ hrun hk4 hcnav
    | error nm =>
        have hrun : createCompleteODAGLink env st opts =
            (c1 ++ c2 ++ c3 ++ c4 ++
              [RemoteCall.navRegister (opts.selectionAppId.getD "")
                link.id st4.xrfKey], st4,
              { success := true, isPartial := true
                odagLinkId := link.id
                selectionAppId := some (opts.selectionAppId.getD "")
                templateAppId := some (opts.templateAppId.getD "")
                selectionAppName := some sname
                templateAppName := some tname
                message := some
                  "ODAG link created successfully. Navigation link must be added manually."
                navigationLinkError := some nm
                manualSteps := none, error := none }) := by
          simp [createCompleteODAGLink, hE, hf1.1, hf1.2, h3, h4, hV1, hV2,
            hC, hN]
        exact glue _ _ _ hrun hk4 hcnav
  rcases ensureAuth_shape env st with hE | hE | hE | ⟨m, hE⟩
  · exact tail [] st hE rfl (fun c hc => absurd hc (List.not_mem_nil c))
  · exact tail [.qrsAbout st.xrfKey] { st with authenticated := true } hE rfl
      (fun c hc => by
        rw [List.mem_singleton.mp hc]
        rfl)
  · exact tail [.qrsAbout st.xrfKey] st hE rfl
      (fun c hc => by
        rw [List.mem_singleton.mp hc]
        rfl)
  · have hrun : createCompleteODAGLink env st opts =
        ([.qrsAbout st.xrfKey], st, failResult m) := by
      simp [createCompleteODAGLink, hE]
    obtain ⟨ht, hst, _⟩ := parts3 hrun
    refine ⟨by rw [hst], ?_⟩
    intro c hc
    rw [ht] at hc
    rw [List.mem_singleton.mp hc]
    rfl

theorem xrfChars_alnum : ∀ n, n < 62 → (xrfChars.getD n ' ').isAlphanum = true := by
  decide

theorem generateXrfKey_length (rand : Nat → Nat) :
    (generateXrfKey rand).length = 16 := by
  simp [generateXrfKey, String.length]

theorem generateXrfKey_alnum (rand : Nat → Nat) (hr : ∀ i, rand i < 62) :
    ∀ c ∈ (generateXrfKey rand).data, c.isAlphanum = true := by
  intro c hc
  simp only [generateXrfKey, List.mem_map, List.mem_range] at hc
  obtain ⟨i, hi, rfl⟩ := hc
  exact xrfChars_alnum _ (hr i)

/-- One public operation invoked on an `ODAGLinkCreator` instance,
together with the remote responses scripted for that invocation. -/
inductive OpCall where
  | complete (env : Env) (opts : Options)
  | test (env : Env)

/-- Run one public operation on the instance state, returning its
recorded outbound calls and the next instance state. -/
def runOp (st : CreatorState) : OpCall → List RemoteCall × CreatorState
  | .complete env opts =>
      ((createCompleteODAGLink env st opts).1,
        (createCompleteODAGLink env st opts).2.1)
  | .test env => ((testConnection env st).1, (testConnection env st).2.1)

/-- Run any sequence of public operations on the instance,
concatenating the recorded outbound calls. -/
def runOps (st : CreatorState) : List OpCall → List RemoteCall × CreatorState
  | [] => ([], st)
  | op :: rest =>
      let p1 := runOp st op
      let p2 := runOps p1.2 rest
      (p1.1 ++ p2.1, p2.2)

theorem runOp_xrf (st : CreatorState) (op : OpCall) :
    (runOp st op).2.xrfKey = st.xrfKey
    ∧ ∀ c ∈ (runOp st op).1, callXrf c = st.xrfKey := by
  cases op with
  | complete env opts =>
      exact ⟨(createCompleteODAGLink_xrf env st opts).1,
        (createCompleteODAGLink_xrf env st opts).2⟩
  | test env =>
      exact ⟨(testConnection_xrf env st).1, (testConnection_xrf env st).2⟩

theorem runOps_xrf (ops : List OpCall) (st : CreatorState) :
    (runOps st ops).2.xrfKey = st.xrfKey
    ∧ ∀ c ∈ (runOps st ops).1, callXrf c = st.xrfKey := by
  induction ops generalizing st with
  | nil => exact ⟨rfl, fun c hc => absurd hc (List.not_mem_nil c)⟩
  | cons op rest ih =>
      obtain ⟨h1, h2⟩ := runOp_xrf st op
      obtain ⟨ih1, ih2⟩ := ih (runOp st op).2
      constructor
      · show (runOps (runOp st op).2 rest).2.xrfKey = st.xrfKey
        exact ih1.trans h1
      · intro c hc
        have hc2 : c ∈ (runOp st op).1 ++ (runOps (runOp st op).2 rest).1 := hc
        rcases List.mem_append.mp hc2 with h | h
        · exact h2 c h
        · exact (ih2 c h).trans h1

/-- C8: for every `ODAGLinkCreator` instance, the anti-forgery token is
a 16-character alphanumeric string generated exactly once at
construction, and that same value is attached to every outbound call
recorded during any sequence of public operations on that instance —
each REST call (where it is both the `xrfkey` URL parameter and the
`X-Qlik-Xrfkey` header) and the WebSocket handshake — and the instance
state after any such sequence still carries the identical token: it is
never regenerated or rotated. -/
theorem c8_token_generated_once (rand : Nat → Nat) (hr : ∀ i, rand i < 62) :
    (mkCreator rand).xrfKey.length = 16
    ∧ (∀ c ∈ (mkCreator rand).xrfKey.data, c.isAlphanum = true)
    ∧ ∀ ops : List OpCall,
        (runOps (mkCreator rand) ops).2.xrfKey = (mkCreator rand).xrfKey
        ∧ ∀ c ∈ (runOps (mkCreator rand) ops).1,
            callXrf c = (mkCreator rand).xrfKey :=
  ⟨generateXrfKey_length rand,
   generateXrfKey_alnum rand hr,
   fun ops => runOps_xrf ops (mkCreator rand)⟩

/-- A concrete random source for the witness. -/
def randW : Nat → Nat := fun i => i % 62

theorem c8_token_generated_once_witness :
    (mkCreator randW).xrfKey = "abcdefghijklmnop"
    ∧ (mkCreator randW).xrfKey.length = 16
    ∧ (runOps (mkCreator randW)
        [.complete envHappy optsOk, .test envHappy]).2.xrfKey =
      (mkCreator randW).xrfKey :=
  ⟨rfl,
   (c8_token_generated_once randW
      (fun i => Nat.mod_lt i (by decide))).1,
   ((c8_token_generated_once randW
      (fun i => Nat.mod_lt i (by decide))).2.2
        [.complete envHappy optsOk, .test envHappy]).1⟩

end ODAG
